import Mathlib

/-!
A shallow embedding of the Blackboard generic key-value store from
src/Blackboard.h (class Utilities::Blackboard and the per-type
Utilities::Templates::ValueMap partitions).

Modelling choices:
* A partition (ValueMap<T>) stores values of a Lean type V behind
  function-maps String to Option; an absent key is none.
* Callbacks are C function pointers in the source; here a pointer is a Nat,
  with 0 playing the role of the null pointer (the source checks the stored
  pointer for null before calling it).  Instead of executing callbacks, a
  write returns the list of callback invocations it performs, in order; an
  invocation records the pointer called and the arguments passed.
* typeid(T).hash_code() is implementation defined, so the embedding carries
  it as an explicit function hc from type indices (Nat) to partition ids.
  Claims that separate distinct types assume hc is injective, which is the
  documented requirement on the type identifier.
* mDataStorage, the map from hash code to heap-allocated partition, becomes
  a function from Nat to Option ValueMap.
* The singleton instance pointer becomes an Option Blackboard; operator new
  either succeeds or raises std::bad_alloc, modelled by an allocation oracle
  and an Except result (error = the exception escaping create).
-/

/-- One callback invocation performed during a write: which stored function
pointer was called, and with which arguments.  The three constructors are the
three callback shapes of the source (EventKeyCallback, EventValueCallback,
EventKeyValueCallback). -/
inductive Event (V : Type) where
  | keyEvt (cb : Nat) (key : String)
  | valueEvt (cb : Nat) (val : V)
  | pairEvt (cb : Nat) (key : String) (val : V)
  deriving DecidableEq, Repr

/-- Pointwise update of a function-map, modelling insertion (some) or
erasure (none) in a std::unordered_map. -/
def updMap {κ β : Type} [DecidableEq κ] (m : κ → Option β) (k : κ) (v : Option β) :
    κ → Option β :=
  fun x => if x = k then v else m x

/-- Utilities::Templates::ValueMap<T>: the per-type partition, holding the
values for the type and the three callback registration maps. -/
structure ValueMap (V : Type) where
  mValues : String → Option V
  mKeyEvents : String → Option Nat
  mValueEvents : String → Option Nat
  mPairEvents : String → Option Nat

/-- A freshly constructed ValueMap<T>: all four maps empty. -/
def emptyValueMap {V : Type} : ValueMap V :=
  ⟨fun _ => none, fun _ => none, fun _ => none, fun _ => none⟩

/-- ValueMap<T>::wipeKey: erase the value stored at a key (mValues.erase). -/
def ValueMap.wipeKey {V : Type} (pKey : String) (m : ValueMap V) : ValueMap V :=
  { m with mValues := updMap m.mValues pKey none }

/-- ValueMap<T>::wipeAll: clear all values (mValues.clear). -/
def ValueMap.wipeAll {V : Type} (m : ValueMap V) : ValueMap V :=
  { m with mValues := fun _ => none }

/-- ValueMap<T>::unsubscribe: erase the callbacks registered at a key in all
three shape maps. -/
def ValueMap.unsubscribe {V : Type} (pKey : String) (m : ValueMap V) : ValueMap V :=
  { m with
      mKeyEvents := updMap m.mKeyEvents pKey none
      mValueEvents := updMap m.mValueEvents pKey none
      mPairEvents := updMap m.mPairEvents pKey none }

/-- ValueMap<T>::clearAllEvents: clear all three callback maps. -/
def ValueMap.clearAllEvents {V : Type} (m : ValueMap V) : ValueMap V :=
  { m with
      mKeyEvents := fun _ => none
      mValueEvents := fun _ => none
      mPairEvents := fun _ => none }

/-- The Blackboard instance state: mDataStorage maps a type hash code to the
partition allocated for that type, none where no partition exists. -/
structure Blackboard (V : Type) where
  mDataStorage : Nat → Option (ValueMap V)

/-- A freshly constructed Blackboard: no partitions. -/
def emptyBlackboard {V : Type} : Blackboard V := ⟨fun _ => none⟩

/-- Blackboard::templateToID<T>: typeid(T).hash_code().  The hash assignment
hc is a parameter of the model; t is the index of the C++ type T. -/
def templateToID (hc : Nat → Nat) (t : Nat) : Nat := hc t

/-- Blackboard::supportType<T>: if mDataStorage has no entry for the hash
code of T, allocate a fresh ValueMap<T> there. -/
def Blackboard.supportType {V : Type} (hc : Nat → Nat) (t : Nat) (bb : Blackboard V) :
    Blackboard V :=
  let key := templateToID hc t
  match bb.mDataStorage key with
  | some _ => bb
  | none => ⟨updMap bb.mDataStorage key (some emptyValueMap)⟩

/-- The partition a lookup through mDataStorage[key] reaches for type t;
reading through an absent partition yields the empty one (observationally
this matches the source, where every operation first runs supportType). -/
def Blackboard.partitionFor {V : Type} (hc : Nat → Nat) (t : Nat) (bb : Blackboard V) :
    ValueMap V :=
  (bb.mDataStorage (templateToID hc t)).getD emptyValueMap

/-- The value stored for type t at a key, none if absent. -/
def Blackboard.lookupValue {V : Type} (hc : Nat → Nat) (t : Nat) (k : String)
    (bb : Blackboard V) : Option V :=
  (bb.partitionFor hc t).mValues k

/-- The key-only callback registered for type t at a key. -/
def Blackboard.lookupKeyCb {V : Type} (hc : Nat → Nat) (t : Nat) (k : String)
    (bb : Blackboard V) : Option Nat :=
  (bb.partitionFor hc t).mKeyEvents k

/-- The value-only callback registered for type t at a key. -/
def Blackboard.lookupValueCb {V : Type} (hc : Nat → Nat) (t : Nat) (k : String)
    (bb : Blackboard V) : Option Nat :=
  (bb.partitionFor hc t).mValueEvents k

/-- The key-and-value callback registered for type t at a key. -/
def Blackboard.lookupPairCb {V : Type} (hc : Nat → Nat) (t : Nat) (k : String)
    (bb : Blackboard V) : Option Nat :=
  (bb.partitionFor hc t).mPairEvents k

/-- Whether a partition is registered for type t. -/
def Blackboard.hasPartition {V : Type} (hc : Nat → Nat) (t : Nat) (bb : Blackboard V) :
    Bool :=
  (bb.mDataStorage (templateToID hc t)).isSome

/-- Blackboard::write<T>: store the value at the key in the partition of T
(mValues[pKey] = pValue), then, when pRaiseCallbacks holds, call the
registered non-null callbacks in the fixed source order: key event, value
event (passed mValues[pKey], the value looked up after the store), pair
event.  The returned list is the trace of calls performed. -/
def Blackboard.write {V : Type} (hc : Nat → Nat) (t : Nat) (pKey : String) (pValue : V)
    (pRaiseCallbacks : Bool) (bb : Blackboard V) : Blackboard V × List (Event V) :=
  let inst := bb.supportType hc t
  let key := templateToID hc t
  let map := (inst.mDataStorage key).getD emptyValueMap
  let map1 := { map with mValues := updMap map.mValues pKey (some pValue) }
  let evts :=
    if pRaiseCallbacks then
      (match map1.mKeyEvents pKey with
        | some cb => if cb ≠ 0 then [Event.keyEvt cb pKey] else []
        | none => []) ++
      (match map1.mValueEvents pKey, map1.mValues pKey with
        | some cb, some w => if cb ≠ 0 then [Event.valueEvt cb w] else []
        | _, _ => []) ++
      (match map1.mPairEvents pKey, map1.mValues pKey with
        | some cb, some w => if cb ≠ 0 then [Event.pairEvt cb pKey w] else []
        | _, _ => [])
    else []
  (⟨updMap inst.mDataStorage key (some map1)⟩, evts)

/-- Blackboard::read<T>: return mValues[pKey].  Map indexing with operator[]
default-constructs and inserts an entry when the key is absent, so a missing
key mutates the partition and yields the default value of T. -/
def Blackboard.read {V : Type} [Inhabited V] (hc : Nat → Nat) (t : Nat) (pKey : String)
    (bb : Blackboard V) : Blackboard V × V :=
  let inst := bb.supportType hc t
  let key := templateToID hc t
  let map := (inst.mDataStorage key).getD emptyValueMap
  match map.mValues pKey with
  | some v => (inst, v)
  | none =>
    let map1 := { map with mValues := updMap map.mValues pKey (some (default : V)) }
    (⟨updMap inst.mDataStorage key (some map1)⟩, (default : V))

/-- Blackboard::wipeTypeKey<T>: delegate wipeKey to the partition of T. -/
def Blackboard.wipeTypeKey {V : Type} (hc : Nat → Nat) (t : Nat) (pKey : String)
    (bb : Blackboard V) : Blackboard V :=
  let inst := bb.supportType hc t
  let key := templateToID hc t
  let map := (inst.mDataStorage key).getD emptyValueMap
  ⟨updMap inst.mDataStorage key (some (map.wipeKey pKey))⟩

/-- Blackboard::subscribe<T> (EventKeyCallback overload): store the callback
in mKeyEvents at the key, replacing any previous one. -/
def Blackboard.subscribeKey {V : Type} (hc : Nat → Nat) (t : Nat) (pKey : String)
    (pCb : Nat) (bb : Blackboard V) : Blackboard V :=
  let inst := bb.supportType hc t
  let key := templateToID hc t
  let map := (inst.mDataStorage key).getD emptyValueMap
  ⟨updMap inst.mDataStorage key
    (some { map with mKeyEvents := updMap map.mKeyEvents pKey (some pCb) })⟩

/-- Blackboard::subscribe<T> (EventValueCallback overload): store the
callback in mValueEvents at the key, replacing any previous one. -/
def Blackboard.subscribeValue {V : Type} (hc : Nat → Nat) (t : Nat) (pKey : String)
    (pCb : Nat) (bb : Blackboard V) : Blackboard V :=
  let inst := bb.supportType hc t
  let key := templateToID hc t
  let map := (inst.mDataStorage key).getD emptyValueMap
  ⟨updMap inst.mDataStorage key
    (some { map with mValueEvents := updMap map.mValueEvents pKey (some pCb) })⟩

/-- Blackboard::subscribe<T> (EventKeyValueCallback overload): store the
callback in mPairEvents at the key, replacing any previous one. -/
def Blackboard.subscribePair {V : Type} (hc : Nat → Nat) (t : Nat) (pKey : String)
    (pCb : Nat) (bb : Blackboard V) : Blackboard V :=
  let inst := bb.supportType hc t
  let key := templateToID hc t
  let map := (inst.mDataStorage key).getD emptyValueMap
  ⟨updMap inst.mDataStorage key
    (some { map with mPairEvents := updMap map.mPairEvents pKey (some pCb) })⟩

/-- Blackboard::unsubscribe<T>: delegate unsubscribe to the partition of T. -/
def Blackboard.unsubscribe {V : Type} (hc : Nat → Nat) (t : Nat) (pKey : String)
    (bb : Blackboard V) : Blackboard V :=
  let inst := bb.supportType hc t
  let key := templateToID hc t
  let map := (inst.mDataStorage key).getD emptyValueMap
  ⟨updMap inst.mDataStorage key (some (map.unsubscribe pKey))⟩

/-- Blackboard::wipeKey (cross-type): run wipeKey on every registered
partition. -/
def Blackboard.wipeKeyAll {V : Type} (pKey : String) (bb : Blackboard V) : Blackboard V :=
  ⟨fun i => (bb.mDataStorage i).map (ValueMap.wipeKey pKey)⟩

/-- Blackboard::wipeBoard: run wipeAll on every registered partition, and
clearAllEvents as well when pWipeCallbacks holds.  Partitions stay
registered. -/
def Blackboard.wipeBoard {V : Type} (pWipeCallbacks : Bool) (bb : Blackboard V) :
    Blackboard V :=
  ⟨fun i => (bb.mDataStorage i).map
    (fun m => if pWipeCallbacks then (m.wipeAll).clearAllEvents else m.wipeAll)⟩

/-- Blackboard::unsubscribeAll: run unsubscribe on every registered
partition. -/
def Blackboard.unsubscribeAll {V : Type} (pKey : String) (bb : Blackboard V) :
    Blackboard V :=
  ⟨fun i => (bb.mDataStorage i).map (ValueMap.unsubscribe pKey)⟩

/-- Blackboard::isReady: whether the singleton instance pointer is set. -/
def isReady {V : Type} (mInstance : Option (Blackboard V)) : Bool := mInstance.isSome

/-- Blackboard::destroy: delete every partition and the instance, leaving the
instance pointer null; no-op when the pointer is already null. -/
def destroy {V : Type} (mInstance : Option (Blackboard V)) : Option (Blackboard V) :=
  match mInstance with
  | some _ => none
  | none => none

/-- Blackboard::create: destroy any existing instance, then run operator new.
Plain new never yields a null pointer: it either returns a fresh object, so
the function returns the test mInstance != nullptr (necessarily true), or it
raises std::bad_alloc, modelled by the allocOk oracle being false, in which
case the exception escapes create carrying no boolean; the error value is
the instance pointer left behind (null, since destroy already ran). -/
def create {V : Type} (allocOk : Bool) (mInstance : Option (Blackboard V)) :
    Except (Option (Blackboard V)) (Option (Blackboard V) × Bool) :=
  let afterDestroy := if isReady mInstance then destroy mInstance else mInstance
  if allocOk then
    let newInst : Option (Blackboard V) := some emptyBlackboard
    Except.ok (newInst, isReady newInst)
  else
    Except.error afterDestroy

/-- Sanity check: updating a map then reading the same key yields the update. -/
theorem updMap_same {κ β : Type} [DecidableEq κ] (m : κ → Option β) (k : κ)
    (v : Option β) : updMap m k v k = v := by
  simp [updMap]

/-- Sanity check: updating a map leaves other keys unchanged. -/
theorem updMap_other {κ β : Type} [DecidableEq κ] (m : κ → Option β) (k x : κ)
    (v : Option β) (h : x ≠ k) : updMap m k v x = m x := by
  simp [updMap, h]

/-- supportType does not change the partition any lookup reaches. -/
theorem partitionFor_supportType {V : Type} (hc : Nat → Nat) (t t' : Nat)
    (bb : Blackboard V) :
    (bb.supportType hc t').partitionFor hc t = bb.partitionFor hc t := by
  unfold Blackboard.supportType
  cases h : bb.mDataStorage (templateToID hc t') with
  | some m => simp [h]
  | none =>
    by_cases he : templateToID hc t = templateToID hc t'
    · simp [h, Blackboard.partitionFor, updMap, he]
    · simp [h, Blackboard.partitionFor, updMap, he]

/-- supportType leaves storage slots other than the one of t unchanged. -/
theorem supportType_storage_other {V : Type} (hc : Nat → Nat) (t : Nat) (i : Nat)
    (bb : Blackboard V) (hi : i ≠ templateToID hc t) :
    (bb.supportType hc t).mDataStorage i = bb.mDataStorage i := by
  unfold Blackboard.supportType
  cases h : bb.mDataStorage (templateToID hc t) with
  | some m => simp [h]
  | none => simp [h, updMap, hi]

/-- After supportType the partition slot of t is occupied. -/
theorem supportType_isSome {V : Type} (hc : Nat → Nat) (t : Nat) (bb : Blackboard V) :
    ((bb.supportType hc t).mDataStorage (templateToID hc t)).isSome = true := by
  unfold Blackboard.supportType
  cases h : bb.mDataStorage (templateToID hc t) with
  | some m => simp [h]
  | none => simp [h, updMap]

/-- A write stores its value: looking the key up in the partition of the
written type afterwards yields the value just written. -/
theorem lookupValue_write_self {V : Type} (hc : Nat → Nat) (t : Nat) (k : String)
    (v : V) (r : Bool) (bb : Blackboard V) :
    ((Blackboard.write hc t k v r bb).1).lookupValue hc t k = some v := by
  simp only [Blackboard.write, Blackboard.lookupValue, Blackboard.partitionFor]
  simp [updMap]

/-- A write leaves the values at other keys of its own partition unchanged. -/
theorem lookupValue_write_other_key {V : Type} (hc : Nat → Nat) (t : Nat) (k k' : String)
    (v : V) (r : Bool) (bb : Blackboard V) (hk : k' ≠ k) :
    ((Blackboard.write hc t k v r bb).1).lookupValue hc t k' = bb.lookupValue hc t k' := by
  have hp : ((bb.supportType hc t).mDataStorage (templateToID hc t)).getD emptyValueMap
      = bb.partitionFor hc t := partitionFor_supportType hc t t bb
  simp only [Blackboard.write, Blackboard.lookupValue, Blackboard.partitionFor]
  simp [updMap, hk, hp]
  rfl

/-- A write leaves every storage slot other than its own partition slot
unchanged. -/
theorem write_storage_other {V : Type} (hc : Nat → Nat) (t : Nat) (i : Nat) (k : String)
    (v : V) (r : Bool) (bb : Blackboard V) (hi : i ≠ templateToID hc t) :
    ((Blackboard.write hc t k v r bb).1).mDataStorage i = bb.mDataStorage i := by
  simp only [Blackboard.write]
  simp [updMap, hi, supportType_storage_other hc t i bb hi]

/-- A write does not change any callback registration of its own partition. -/
theorem write_keeps_callbacks {V : Type} (hc : Nat → Nat) (t : Nat) (k k' : String)
    (v : V) (r : Bool) (bb : Blackboard V) :
    ((Blackboard.write hc t k v r bb).1).lookupKeyCb hc t k' = bb.lookupKeyCb hc t k' ∧
    ((Blackboard.write hc t k v r bb).1).lookupValueCb hc t k' = bb.lookupValueCb hc t k' ∧
    ((Blackboard.write hc t k v r bb).1).lookupPairCb hc t k' = bb.lookupPairCb hc t k' := by
  have hp : ((bb.supportType hc t).mDataStorage (templateToID hc t)).getD emptyValueMap
      = bb.partitionFor hc t := partitionFor_supportType hc t t bb
  simp only [Blackboard.write, Blackboard.lookupKeyCb, Blackboard.lookupValueCb,
    Blackboard.lookupPairCb, Blackboard.partitionFor]
  simp [updMap, hp]
  exact ⟨rfl, rfl, rfl⟩

/-- The trace of a callback-raising write: the key event, then the value
event with the just-stored value, then the pair event, each present exactly
when a non-null callback of that shape is registered at the key. -/
theorem write_snd_true {V : Type} (hc : Nat → Nat) (t : Nat) (k : String) (v : V)
    (bb : Blackboard V) :
    (Blackboard.write hc t k v true bb).2 =
      (match bb.lookupKeyCb hc t k with
        | some cb => if cb ≠ 0 then [Event.keyEvt cb k] else []
        | none => []) ++
      (match bb.lookupValueCb hc t k with
        | some cb => if cb ≠ 0 then [Event.valueEvt cb v] else []
        | none => []) ++
      (match bb.lookupPairCb hc t k with
        | some cb => if cb ≠ 0 then [Event.pairEvt cb k v] else []
        | none => []) := by
  have hp : ((bb.supportType hc t).mDataStorage (templateToID hc t)).getD emptyValueMap
      = bb.partitionFor hc t := partitionFor_supportType hc t t bb
  simp only [Blackboard.write, Blackboard.lookupKeyCb, Blackboard.lookupValueCb,
    Blackboard.lookupPairCb]
  rw [hp]
  simp [updMap]
  cases hv : (Blackboard.partitionFor hc t bb).mValueEvents k <;>
    cases hq : (Blackboard.partitionFor hc t bb).mPairEvents k <;>
      simp [hv, hq]

/-- A write with pRaiseCallbacks false performs no callback invocation. -/
theorem write_snd_false {V : Type} (hc : Nat → Nat) (t : Nat) (k : String) (v : V)
    (bb : Blackboard V) :
    (Blackboard.write hc t k v false bb).2 = [] := by
  simp [Blackboard.write]

/-- The value a read returns: the stored value when present, the default
value of the type otherwise. -/
theorem read_snd {V : Type} [Inhabited V] (hc : Nat → Nat) (t : Nat) (k : String)
    (bb : Blackboard V) :
    (Blackboard.read hc t k bb).2 = (bb.lookupValue hc t k).getD default := by
  have hp : ((bb.supportType hc t).mDataStorage (templateToID hc t)).getD emptyValueMap
      = bb.partitionFor hc t := partitionFor_supportType hc t t bb
  simp only [Blackboard.read]
  rw [hp]
  unfold Blackboard.lookupValue
  cases h : (bb.partitionFor hc t).mValues k <;> simp [h]

/-- A read of an absent key inserts the default value into the partition of
the read type, as a side effect of map indexing. -/
theorem read_missing_inserts {V : Type} [Inhabited V] (hc : Nat → Nat) (t : Nat)
    (k : String) (bb : Blackboard V) (h : bb.lookupValue hc t k = none) :
    ((Blackboard.read hc t k bb).1).lookupValue hc t k = some (default : V) ∧
    ((Blackboard.read hc t k bb).1).hasPartition hc t = true := by
  have hp : ((bb.supportType hc t).mDataStorage (templateToID hc t)).getD emptyValueMap
      = bb.partitionFor hc t := partitionFor_supportType hc t t bb
  have h' : (bb.partitionFor hc t).mValues k = none := h
  simp only [Blackboard.read]
  rw [hp, h']
  refine ⟨?_, ?_⟩
  · simp [Blackboard.lookupValue, Blackboard.partitionFor, updMap]
  · simp [Blackboard.hasPartition, updMap]

/-- wipeTypeKey removes the value at its key in the partition of its type. -/
theorem wipeTypeKey_lookupValue_self {V : Type} (hc : Nat → Nat) (t : Nat) (k : String)
    (bb : Blackboard V) :
    (Blackboard.wipeTypeKey hc t k bb).lookupValue hc t k = none := by
  simp only [Blackboard.wipeTypeKey, Blackboard.lookupValue, Blackboard.partitionFor]
  simp [updMap, ValueMap.wipeKey]

/-- wipeTypeKey keeps the values of its own partition at other keys. -/
theorem wipeTypeKey_lookupValue_other_key {V : Type} (hc : Nat → Nat) (t : Nat)
    (k k' : String) (bb : Blackboard V) (hk : k' ≠ k) :
    (Blackboard.wipeTypeKey hc t k bb).lookupValue hc t k' = bb.lookupValue hc t k' := by
  have hp : ((bb.supportType hc t).mDataStorage (templateToID hc t)).getD emptyValueMap
      = bb.partitionFor hc t := partitionFor_supportType hc t t bb
  simp only [Blackboard.wipeTypeKey, Blackboard.lookupValue, Blackboard.partitionFor]
  simp [updMap, ValueMap.wipeKey, hk, hp]
  rfl

/-- wipeTypeKey leaves every storage slot other than the one of its type
unchanged. -/
theorem wipeTypeKey_storage_other {V : Type} (hc : Nat → Nat) (t : Nat) (i : Nat)
    (k : String) (bb : Blackboard V) (hi : i ≠ templateToID hc t) :
    (Blackboard.wipeTypeKey hc t k bb).mDataStorage i = bb.mDataStorage i := by
  simp only [Blackboard.wipeTypeKey]
  simp [updMap, hi, supportType_storage_other hc t i bb hi]

/-- wipeTypeKey changes no callback registration, in any partition, at any
key: the delegated ValueMap wipeKey only touches mValues. -/
theorem wipeTypeKey_keeps_callbacks {V : Type} (hc : Nat → Nat) (t t' : Nat)
    (k k' : String) (bb : Blackboard V) :
    (Blackboard.wipeTypeKey hc t k bb).lookupKeyCb hc t' k' = bb.lookupKeyCb hc t' k' ∧
    (Blackboard.wipeTypeKey hc t k bb).lookupValueCb hc t' k' = bb.lookupValueCb hc t' k' ∧
    (Blackboard.wipeTypeKey hc t k bb).lookupPairCb hc t' k' = bb.lookupPairCb hc t' k' := by
  have hp : ((bb.supportType hc t).mDataStorage (templateToID hc t)).getD emptyValueMap
      = bb.partitionFor hc t := partitionFor_supportType hc t t bb
  by_cases he : templateToID hc t' = templateToID hc t
  · simp only [Blackboard.wipeTypeKey, Blackboard.lookupKeyCb, Blackboard.lookupValueCb,
      Blackboard.lookupPairCb, Blackboard.partitionFor, he]
    simp [updMap, ValueMap.wipeKey, hp]
    exact ⟨rfl, rfl, rfl⟩
  · have hs := supportType_storage_other hc t (templateToID hc t') bb he
    simp only [Blackboard.wipeTypeKey, Blackboard.lookupKeyCb, Blackboard.lookupValueCb,
      Blackboard.lookupPairCb, Blackboard.partitionFor]
    simp [updMap, he, hs]

/-- After wipeTypeKey a partition for the type is registered (supportType ran). -/
theorem wipeTypeKey_hasPartition {V : Type} (hc : Nat → Nat) (t : Nat) (k : String)
    (bb : Blackboard V) :
    (Blackboard.wipeTypeKey hc t k bb).hasPartition hc t = true := by
  simp [Blackboard.wipeTypeKey, Blackboard.hasPartition, updMap]

/-- After unsubscribe a partition for the type is registered (supportType ran). -/
theorem unsubscribe_hasPartition {V : Type} (hc : Nat → Nat) (t : Nat) (k : String)
    (bb : Blackboard V) :
    (Blackboard.unsubscribe hc t k bb).hasPartition hc t = true := by
  simp [Blackboard.unsubscribe, Blackboard.hasPartition, updMap]

/-- unsubscribe keeps the values of its partition unchanged at every key. -/
theorem unsubscribe_lookupValue {V : Type} (hc : Nat → Nat) (t : Nat) (k k' : String)
    (bb : Blackboard V) :
    (Blackboard.unsubscribe hc t k bb).lookupValue hc t k' = bb.lookupValue hc t k' := by
  have hp : ((bb.supportType hc t).mDataStorage (templateToID hc t)).getD emptyValueMap
      = bb.partitionFor hc t := partitionFor_supportType hc t t bb
  simp only [Blackboard.unsubscribe, Blackboard.lookupValue, Blackboard.partitionFor]
  simp [updMap, ValueMap.unsubscribe, hp]
  rfl

/-- subscribe with a key-only callback: it lands in mKeyEvents at its key,
and the other two shape maps are untouched at every key. -/
theorem subscribeKey_spec {V : Type} (hc : Nat → Nat) (t : Nat) (k k' : String)
    (cb : Nat) (bb : Blackboard V) :
    (Blackboard.subscribeKey hc t k cb bb).lookupKeyCb hc t k = some cb ∧
    (Blackboard.subscribeKey hc t k cb bb).lookupValueCb hc t k' = bb.lookupValueCb hc t k' ∧
    (Blackboard.subscribeKey hc t k cb bb).lookupPairCb hc t k' = bb.lookupPairCb hc t k' := by
  have hp : ((bb.supportType hc t).mDataStorage (templateToID hc t)).getD emptyValueMap
      = bb.partitionFor hc t := partitionFor_supportType hc t t bb
  simp only [Blackboard.subscribeKey, Blackboard.lookupKeyCb, Blackboard.lookupValueCb,
    Blackboard.lookupPairCb, Blackboard.partitionFor]
  simp [updMap, hp]
  exact ⟨rfl, rfl⟩

/-- subscribe with a value-only callback: it lands in mValueEvents at its
key, and the other two shape maps are untouched at every key. -/
theorem subscribeValue_spec {V : Type} (hc : Nat → Nat) (t : Nat) (k k' : String)
    (cb : Nat) (bb : Blackboard V) :
    (Blackboard.subscribeValue hc t k cb bb).lookupValueCb hc t k = some cb ∧
    (Blackboard.subscribeValue hc t k cb bb).lookupKeyCb hc t k' = bb.lookupKeyCb hc t k' ∧
    (Blackboard.subscribeValue hc t k cb bb).lookupPairCb hc t k' = bb.lookupPairCb hc t k' := by
  have hp : ((bb.supportType hc t).mDataStorage (templateToID hc t)).getD emptyValueMap
      = bb.partitionFor hc t := partitionFor_supportType hc t t bb
  simp only [Blackboard.subscribeValue, Blackboard.lookupKeyCb, Blackboard.lookupValueCb,
    Blackboard.lookupPairCb, Blackboard.partitionFor]
  simp [updMap, hp]
  exact ⟨rfl, rfl⟩

/-- subscribe with a key-and-value callback: it lands in mPairEvents at its
key, and the other two shape maps are untouched at every key. -/
theorem subscribePair_spec {V : Type} (hc : Nat → Nat) (t : Nat) (k k' : String)
    (cb : Nat) (bb : Blackboard V) :
    (Blackboard.subscribePair hc t k cb bb).lookupPairCb hc t k = some cb ∧
    (Blackboard.subscribePair hc t k cb bb).lookupKeyCb hc t k' = bb.lookupKeyCb hc t k' ∧
    (Blackboard.subscribePair hc t k cb bb).lookupValueCb hc t k' = bb.lookupValueCb hc t k' := by
  have hp : ((bb.supportType hc t).mDataStorage (templateToID hc t)).getD emptyValueMap
      = bb.partitionFor hc t := partitionFor_supportType hc t t bb
  simp only [Blackboard.subscribePair, Blackboard.lookupKeyCb, Blackboard.lookupValueCb,
    Blackboard.lookupPairCb, Blackboard.partitionFor]
  simp [updMap, hp]
  exact ⟨rfl, rfl⟩

/-- wipeBoard empties the values of every partition, for either flag value. -/
theorem wipeBoard_lookupValue {V : Type} (pW : Bool) (hc : Nat → Nat) (t : Nat)
    (k : String) (bb : Blackboard V) :
    (Blackboard.wipeBoard pW bb).lookupValue hc t k = none := by
  simp only [Blackboard.wipeBoard, Blackboard.lookupValue, Blackboard.partitionFor]
  cases h : bb.mDataStorage (templateToID hc t) with
  | none => simp [h, emptyValueMap]
  | some m => cases pW <;> simp [h, ValueMap.wipeAll, ValueMap.clearAllEvents]

/-- wipeBoard with pWipeCallbacks false keeps every callback registration. -/
theorem wipeBoard_false_keeps_callbacks {V : Type} (hc : Nat → Nat) (t : Nat)
    (k : String) (bb : Blackboard V) :
    (Blackboard.wipeBoard false bb).lookupKeyCb hc t k = bb.lookupKeyCb hc t k ∧
    (Blackboard.wipeBoard false bb).lookupValueCb hc t k = bb.lookupValueCb hc t k ∧
    (Blackboard.wipeBoard false bb).lookupPairCb hc t k = bb.lookupPairCb hc t k := by
  simp only [Blackboard.wipeBoard, Blackboard.lookupKeyCb, Blackboard.lookupValueCb,
    Blackboard.lookupPairCb, Blackboard.partitionFor]
  cases h : bb.mDataStorage (templateToID hc t) with
  | none => simp [h]
  | some m => simp [h, ValueMap.wipeAll]

/-- wipeBoard with pWipeCallbacks true clears every callback registration. -/
theorem wipeBoard_true_clears_callbacks {V : Type} (hc : Nat → Nat) (t : Nat)
    (k : String) (bb : Blackboard V) :
    (Blackboard.wipeBoard true bb).lookupKeyCb hc t k = none ∧
    (Blackboard.wipeBoard true bb).lookupValueCb hc t k = none ∧
    (Blackboard.wipeBoard true bb).lookupPairCb hc t k = none := by
  simp only [Blackboard.wipeBoard, Blackboard.lookupKeyCb, Blackboard.lookupValueCb,
    Blackboard.lookupPairCb, Blackboard.partitionFor]
  cases h : bb.mDataStorage (templateToID hc t) with
  | none => simp [h, emptyValueMap]
  | some m => simp [h, ValueMap.wipeAll, ValueMap.clearAllEvents]

/-- wipeBoard never deallocates a partition and never allocates one. -/
theorem wipeBoard_hasPartition {V : Type} (pW : Bool) (hc : Nat → Nat) (t : Nat)
    (bb : Blackboard V) :
    (Blackboard.wipeBoard pW bb).hasPartition hc t = bb.hasPartition hc t := by
  simp only [Blackboard.wipeBoard, Blackboard.hasPartition]
  cases h : bb.mDataStorage (templateToID hc t) <;> simp [h]

/-- Claim C1: for every key and type, write with raiseCallbacks true stores
the value, and fires exactly one invocation per callback shape registered
for that key in the partition of the written type, in the fixed order
key-only, then value-only (receiving the just-stored value), then
key-and-value; a shape with no registered callback is skipped. -/
theorem C1_write_stores_then_raises_in_order {V : Type} (hc : Nat → Nat) (t : Nat)
    (k : String) (v : V) (bb : Blackboard V) :
    ((Blackboard.write hc t k v true bb).1).lookupValue hc t k = some v ∧
    (Blackboard.write hc t k v true bb).2 =
      (match bb.lookupKeyCb hc t k with
        | some cb => if cb ≠ 0 then [Event.keyEvt cb k] else []
        | none => []) ++
      (match bb.lookupValueCb hc t k with
        | some cb => if cb ≠ 0 then [Event.valueEvt cb v] else []
        | none => []) ++
      (match bb.lookupPairCb hc t k with
        | some cb => if cb ≠ 0 then [Event.pairEvt cb k v] else []
        | none => []) :=
  ⟨lookupValue_write_self hc t k v true bb, write_snd_true hc t k v bb⟩

/-- Claim C2: reading a key absent from the partition of the read type
returns the default value, inserts that default entry into the partition as
a side effect (the partition then exists and holds the entry), and a second
read of the same key returns the same default. -/
theorem C2_read_missing_key_default_inserts {V : Type} [Inhabited V] (hc : Nat → Nat)
    (t : Nat) (k : String) (bb : Blackboard V) (h : bb.lookupValue hc t k = none) :
    (Blackboard.read hc t k bb).2 = (default : V) ∧
    ((Blackboard.read hc t k bb).1).lookupValue hc t k = some (default : V) ∧
    ((Blackboard.read hc t k bb).1).hasPartition hc t = true ∧
    (Blackboard.read hc t k ((Blackboard.read hc t k bb).1)).2 = (default : V) := by
  obtain ⟨h1, h2⟩ := read_missing_inserts hc t k bb h
  refine ⟨?_, h1, h2, ?_⟩
  · rw [read_snd, h]
    rfl
  · rw [read_snd, h1]
    rfl

/-- Claim C2 witness: on a fresh board, reading an unwritten key of the Nat
partition yields 0, inserts the 0 entry, and reads 0 again afterwards. -/
theorem C2_witness :
    (emptyBlackboard : Blackboard Nat).lookupValue id 0 "a" = none ∧
    ((Blackboard.read id 0 "a" (emptyBlackboard : Blackboard Nat)).2 = (default : Nat) ∧
     ((Blackboard.read id 0 "a" (emptyBlackboard : Blackboard Nat)).1).lookupValue id 0 "a"
        = some (default : Nat) ∧
     ((Blackboard.read id 0 "a" (emptyBlackboard : Blackboard Nat)).1).hasPartition id 0 = true ∧
     (Blackboard.read id 0 "a"
        ((Blackboard.read id 0 "a" (emptyBlackboard : Blackboard Nat)).1)).2 = (default : Nat)) :=
  ⟨by decide, C2_read_missing_key_default_inserts id 0 "a" emptyBlackboard (by decide)⟩

/-- Claim C3: distinct types whose hash codes differ (the hash assignment is
injective) resolve to distinct partitions; a write of one type is invisible
to lookups and reads of the other type at the same key. -/
theorem C3_type_isolation {V : Type} [Inhabited V] (hc : Nat → Nat) (tA tB : Nat)
    (k : String) (v : V) (r : Bool) (bb : Blackboard V)
    (hinj : Function.Injective hc) (hab : tA ≠ tB) :
    templateToID hc tA ≠ templateToID hc tB ∧
    ((Blackboard.write hc tA k v r bb).1).lookupValue hc tB k = bb.lookupValue hc tB k ∧
    (Blackboard.read hc tB k ((Blackboard.write hc tA k v r bb).1)).2 =
      (Blackboard.read hc tB k bb).2 := by
  have hne : templateToID hc tA ≠ templateToID hc tB := fun h => hab (hinj h)
  have hs := write_storage_other hc tA (templateToID hc tB) k v r bb (fun h => hne h.symm)
  have hlv : ((Blackboard.write hc tA k v r bb).1).lookupValue hc tB k
      = bb.lookupValue hc tB k := by
    simp [Blackboard.lookupValue, Blackboard.partitionFor, hs]
  refine ⟨hne, hlv, ?_⟩
  rw [read_snd, read_snd, hlv]

/-- Claim C3 witness: writing 5 under type 0 at a key leaves type 1 at the
same key unwritten, and a read under type 1 is unchanged by that write. -/
theorem C3_witness :
    Function.Injective (id : Nat → Nat) ∧ (0 : Nat) ≠ 1 ∧
    (templateToID id 0 ≠ templateToID id 1 ∧
     ((Blackboard.write id 0 "a" (5 : Nat) true emptyBlackboard).1).lookupValue id 1 "a"
        = (emptyBlackboard : Blackboard Nat).lookupValue id 1 "a" ∧
     (Blackboard.read id 1 "a"
        ((Blackboard.write id 0 "a" (5 : Nat) true emptyBlackboard).1)).2
        = (Blackboard.read id 1 "a" (emptyBlackboard : Blackboard Nat)).2) :=
  ⟨Function.injective_id, by decide,
    C3_type_isolation id 0 1 "a" 5 true emptyBlackboard Function.injective_id (by decide)⟩

/-- Claim C4: two successive writes to the same key and type leave exactly
the second value, for any callback flags: the second write overwrites the
first with no merge, and a read returns the second value. -/
theorem C4_last_write_wins {V : Type} [Inhabited V] (hc : Nat → Nat) (t : Nat)
    (k : String) (v1 v2 : V) (r1 r2 : Bool) (bb : Blackboard V) :
    (Blackboard.read hc t k
      ((Blackboard.write hc t k v2 r2 ((Blackboard.write hc t k v1 r1 bb).1)).1)).2 = v2 ∧
    ((Blackboard.write hc t k v2 r2
      ((Blackboard.write hc t k v1 r1 bb).1)).1).lookupValue hc t k = some v2 := by
  have h := lookupValue_write_self hc t k v2 r2 ((Blackboard.write hc t k v1 r1 bb).1)
  refine ⟨?_, h⟩
  rw [read_snd, h]
  rfl

/-- Claim C5: a write with raiseCallbacks false stores its value and fires
zero callbacks of any shape, regardless of what is registered. -/
theorem C5_silent_write {V : Type} (hc : Nat → Nat) (t : Nat) (k : String) (v : V)
    (bb : Blackboard V) :
    (Blackboard.write hc t k v false bb).2 = [] ∧
    ((Blackboard.write hc t k v false bb).1).lookupValue hc t k = some v :=
  ⟨write_snd_false hc t k v bb, lookupValue_write_self hc t k v false bb⟩

/-- Claim C6: per key there is at most one callback per shape: a second
subscription of the same shape replaces the first, a subscription of one
shape leaves the other two shapes untouched, and subscribing all three
shapes on one key yields three simultaneously registered callbacks. -/
theorem C6_at_most_one_callback_per_shape {V : Type} (hc : Nat → Nat) (t : Nat)
    (k : String) (c1 c2 c3 d1 d2 d3 : Nat) (bb : Blackboard V) :
    (Blackboard.subscribeKey hc t k d1
      (Blackboard.subscribeKey hc t k c1 bb)).lookupKeyCb hc t k = some d1 ∧
    (Blackboard.subscribeValue hc t k d2
      (Blackboard.subscribeValue hc t k c2 bb)).lookupValueCb hc t k = some d2 ∧
    (Blackboard.subscribePair hc t k d3
      (Blackboard.subscribePair hc t k c3 bb)).lookupPairCb hc t k = some d3 ∧
    (Blackboard.subscribeKey hc t k c1 bb).lookupValueCb hc t k = bb.lookupValueCb hc t k ∧
    (Blackboard.subscribeKey hc t k c1 bb).lookupPairCb hc t k = bb.lookupPairCb hc t k ∧
    (Blackboard.subscribeValue hc t k c2 bb).lookupKeyCb hc t k = bb.lookupKeyCb hc t k ∧
    (Blackboard.subscribeValue hc t k c2 bb).lookupPairCb hc t k = bb.lookupPairCb hc t k ∧
    (Blackboard.subscribePair hc t k c3 bb).lookupKeyCb hc t k = bb.lookupKeyCb hc t k ∧
    (Blackboard.subscribePair hc t k c3 bb).lookupValueCb hc t k = bb.lookupValueCb hc t k ∧
    (Blackboard.subscribePair hc t k c3 (Blackboard.subscribeValue hc t k c2
      (Blackboard.subscribeKey hc t k c1 bb))).lookupKeyCb hc t k = some c1 ∧
    (Blackboard.subscribePair hc t k c3 (Blackboard.subscribeValue hc t k c2
      (Blackboard.subscribeKey hc t k c1 bb))).lookupValueCb hc t k = some c2 ∧
    (Blackboard.subscribePair hc t k c3 (Blackboard.subscribeValue hc t k c2
      (Blackboard.subscribeKey hc t k c1 bb))).lookupPairCb hc t k = some c3 := by
  refine ⟨(subscribeKey_spec hc t k k d1 _).1, (subscribeValue_spec hc t k k d2 _).1,
    (subscribePair_spec hc t k k d3 _).1,
    (subscribeKey_spec hc t k k c1 bb).2.1, (subscribeKey_spec hc t k k c1 bb).2.2,
    (subscribeValue_spec hc t k k c2 bb).2.1, (subscribeValue_spec hc t k k c2 bb).2.2,
    (subscribePair_spec hc t k k c3 bb).2.1, (subscribePair_spec hc t k k c3 bb).2.2,
    ?_, ?_, ?_⟩
  · rw [(subscribePair_spec hc t k k c3 _).2.1, (subscribeValue_spec hc t k k c2 _).2.1,
      (subscribeKey_spec hc t k k c1 bb).1]
  · rw [(subscribePair_spec hc t k k c3 _).2.2, (subscribeValue_spec hc t k k c2 _).1]
  · exact (subscribePair_spec hc t k k c3 _).1

/-- Claim C7: wipeBoard false clears every stored value in every partition
while keeping every callback registration of all three shapes, so that a
previously registered non-null key callback still fires on the next write to
its key; wipeBoard true additionally clears every callback registration,
after which a callback-raising write fires nothing; under both flags the
partitions stay registered for their types. -/
theorem C7_wipeBoard_values_and_callbacks {V : Type} (hc : Nat → Nat) (t : Nat)
    (k : String) (v : V) (cb : Nat) (bb : Blackboard V) :
    (Blackboard.wipeBoard false bb).lookupValue hc t k = none ∧
    (Blackboard.wipeBoard false bb).lookupKeyCb hc t k = bb.lookupKeyCb hc t k ∧
    (Blackboard.wipeBoard false bb).lookupValueCb hc t k = bb.lookupValueCb hc t k ∧
    (Blackboard.wipeBoard false bb).lookupPairCb hc t k = bb.lookupPairCb hc t k ∧
    (bb.lookupKeyCb hc t k = some cb → cb ≠ 0 →
      Event.keyEvt cb k ∈ (Blackboard.write hc t k v true (Blackboard.wipeBoard false bb)).2) ∧
    (Blackboard.wipeBoard true bb).lookupValue hc t k = none ∧
    (Blackboard.wipeBoard true bb).lookupKeyCb hc t k = none ∧
    (Blackboard.wipeBoard true bb).lookupValueCb hc t k = none ∧
    (Blackboard.wipeBoard true bb).lookupPairCb hc t k = none ∧
    (Blackboard.write hc t k v true (Blackboard.wipeBoard true bb)).2 = [] ∧
    (Blackboard.wipeBoard false bb).hasPartition hc t = bb.hasPartition hc t ∧
    (Blackboard.wipeBoard true bb).hasPartition hc t = bb.hasPartition hc t := by
  obtain ⟨hk0, hv0, hp0⟩ := wipeBoard_false_keeps_callbacks hc t k bb
  obtain ⟨hk1, hv1, hp1⟩ := wipeBoard_true_clears_callbacks hc t k bb
  refine ⟨wipeBoard_lookupValue false hc t k bb, hk0, hv0, hp0, ?_,
    wipeBoard_lookupValue true hc t k bb, hk1, hv1, hp1, ?_,
    wipeBoard_hasPartition false hc t bb, wipeBoard_hasPartition true hc t bb⟩
  · intro h hcb
    rw [write_snd_true, hk0, h]
    simp [hcb]
  · rw [write_snd_true, hk1, hv1, hp1]
    rfl

/-- Claim C7 witness: with key callback 1 registered at key a for type 0,
after wipeBoard false the next callback-raising write still fires it, and
after wipeBoard true the same write fires nothing. -/
theorem C7_witness :
    Event.keyEvt 1 "a" ∈ (Blackboard.write id 0 "a" (7 : Nat) true
      (Blackboard.wipeBoard false (Blackboard.subscribeKey id 0 "a" 1
        (emptyBlackboard : Blackboard Nat)))).2 ∧
    (Blackboard.write id 0 "a" (7 : Nat) true (Blackboard.wipeBoard true
      (Blackboard.subscribeKey id 0 "a" 1 (emptyBlackboard : Blackboard Nat)))).2 = [] :=
  ⟨(C7_wipeBoard_values_and_callbacks id 0 "a" 7 1
      (Blackboard.subscribeKey id 0 "a" 1 emptyBlackboard)).2.2.2.2.1
      (by decide) (by decide),
    (C7_wipeBoard_values_and_callbacks id 0 "a" 7 1
      (Blackboard.subscribeKey id 0 "a" 1 emptyBlackboard)).2.2.2.2.2.2.2.2.2.1⟩
/-- Claim C8: wipeTypeKey removes its key from the partition of its type
only: the key stays intact under every other type (hash codes injective),
callback registrations everywhere are untouched, and when the key is absent
from the partition the values of that partition are unchanged. -/
theorem C8_wipeTypeKey_only_own_partition {V : Type} (hc : Nat → Nat) (t t' : Nat)
    (k k' : String) (bb : Blackboard V) (hinj : Function.Injective hc) :
    (Blackboard.wipeTypeKey hc t k bb).lookupValue hc t k = none ∧
    (t' ≠ t → (Blackboard.wipeTypeKey hc t k bb).lookupValue hc t' k
        = bb.lookupValue hc t' k) ∧
    (Blackboard.wipeTypeKey hc t k bb).lookupKeyCb hc t' k' = bb.lookupKeyCb hc t' k' ∧
    (Blackboard.wipeTypeKey hc t k bb).lookupValueCb hc t' k' = bb.lookupValueCb hc t' k' ∧
    (Blackboard.wipeTypeKey hc t k bb).lookupPairCb hc t' k' = bb.lookupPairCb hc t' k' ∧
    (bb.lookupValue hc t k = none →
      (Blackboard.wipeTypeKey hc t k bb).lookupValue hc t k' = bb.lookupValue hc t k') := by
  obtain ⟨hek, hev, hep⟩ := wipeTypeKey_keeps_callbacks hc t t' k k' bb
  refine ⟨wipeTypeKey_lookupValue_self hc t k bb, ?_, hek, hev, hep, ?_⟩
  · intro hne
    have hi : templateToID hc t' ≠ templateToID hc t := fun h => hne (hinj h)
    have hs := wipeTypeKey_storage_other hc t (templateToID hc t') k bb hi
    simp [Blackboard.lookupValue, Blackboard.partitionFor, hs]
  · intro habs
    by_cases hkk : k' = k
    · subst hkk
      rw [wipeTypeKey_lookupValue_self, habs]
    · exact wipeTypeKey_lookupValue_other_key hc t k k' bb hkk

/-- Claim C8 witness: after writing 5 under type 0 and 6 under type 1 at the
same key, wiping the key for type 0 leaves the type 1 value and all callback
registrations as they were. -/
theorem C8_witness :
    Function.Injective (id : Nat → Nat) ∧
    ((Blackboard.wipeTypeKey id 0 "a"
        ((Blackboard.write id 1 "a" (6 : Nat) false
          ((Blackboard.write id 0 "a" (5 : Nat) false emptyBlackboard).1)).1)).lookupValue
        id 0 "a" = none ∧
     ((1 : Nat) ≠ 0 → (Blackboard.wipeTypeKey id 0 "a"
        ((Blackboard.write id 1 "a" (6 : Nat) false
          ((Blackboard.write id 0 "a" (5 : Nat) false emptyBlackboard).1)).1)).lookupValue
        id 1 "a"
        = ((Blackboard.write id 1 "a" (6 : Nat) false
            ((Blackboard.write id 0 "a" (5 : Nat) false emptyBlackboard).1)).1).lookupValue
            id 1 "a") ∧
     (Blackboard.wipeTypeKey id 0 "a"
        ((Blackboard.write id 1 "a" (6 : Nat) false
          ((Blackboard.write id 0 "a" (5 : Nat) false emptyBlackboard).1)).1)).lookupKeyCb
        id 1 "b"
        = ((Blackboard.write id 1 "a" (6 : Nat) false
            ((Blackboard.write id 0 "a" (5 : Nat) false emptyBlackboard).1)).1).lookupKeyCb
            id 1 "b" ∧
     (Blackboard.wipeTypeKey id 0 "a"
        ((Blackboard.write id 1 "a" (6 : Nat) false
          ((Blackboard.write id 0 "a" (5 : Nat) false emptyBlackboard).1)).1)).lookupValueCb
        id 1 "b"
        = ((Blackboard.write id 1 "a" (6 : Nat) false
            ((Blackboard.write id 0 "a" (5 : Nat) false emptyBlackboard).1)).1).lookupValueCb
            id 1 "b" ∧
     (Blackboard.wipeTypeKey id 0 "a"
        ((Blackboard.write id 1 "a" (6 : Nat) false
          ((Blackboard.write id 0 "a" (5 : Nat) false emptyBlackboard).1)).1)).lookupPairCb
        id 1 "b"
        = ((Blackboard.write id 1 "a" (6 : Nat) false
            ((Blackboard.write id 0 "a" (5 : Nat) false emptyBlackboard).1)).1).lookupPairCb
            id 1 "b" ∧
     (((Blackboard.write id 1 "a" (6 : Nat) false
          ((Blackboard.write id 0 "a" (5 : Nat) false emptyBlackboard).1)).1).lookupValue
          id 0 "a" = none →
       (Blackboard.wipeTypeKey id 0 "a"
          ((Blackboard.write id 1 "a" (6 : Nat) false
            ((Blackboard.write id 0 "a" (5 : Nat) false emptyBlackboard).1)).1)).lookupValue
          id 0 "b"
          = ((Blackboard.write id 1 "a" (6 : Nat) false
              ((Blackboard.write id 0 "a" (5 : Nat) false emptyBlackboard).1)).1).lookupValue
              id 0 "b")) :=
  ⟨Function.injective_id,
    C8_wipeTypeKey_only_own_partition id 0 1 "a" "b"
      ((Blackboard.write id 1 "a" (6 : Nat) false
        ((Blackboard.write id 0 "a" (5 : Nat) false emptyBlackboard).1)).1)
      Function.injective_id⟩

/-- Claim C9 counterexample: when operator new cannot allocate (the
allocation oracle is false), create exits through the exception path and
yields no boolean at all, so the failure is reported by an exception only,
not by the boolean result as the claim states; the claim is false on the
code, whose plain new either throws std::bad_alloc or succeeds, making the
returned test of the new pointer against null constantly true. -/
theorem C9_cex_create_failure_is_exception_only :
    @create Nat false none = Except.error none :=
  rfl

/-- Claim C9 amended: create destroys any existing instance and allocates a
fresh one; when allocation succeeds it returns true (the boolean can never
report failure, since plain new never yields a null pointer) and the fresh
store has no partitions; when allocation is exhausted the exception escapes
create and no boolean is returned. -/
theorem C9_amended_create_reports_true_or_throws {V : Type}
    (mInstance : Option (Blackboard V)) :
    create true mInstance = Except.ok (some emptyBlackboard, true) ∧
    create false mInstance = Except.error none ∧
    ∀ i : Nat, (emptyBlackboard : Blackboard V).mDataStorage i = none := by
  refine ⟨?_, ?_, fun i => rfl⟩
  · cases mInstance <;> rfl
  · cases mInstance <;> rfl

/-- Claim C10: wipeTypeKey and unsubscribe on a type with no partition yet
run supportType, so each creates a fresh empty partition as a side effect:
afterwards a partition for the type is registered, holding no values and no
key callbacks. -/
theorem C10_wipe_and_unsubscribe_create_partition {V : Type} (hc : Nat → Nat) (t : Nat)
    (k k' : String) (bb : Blackboard V)
    (h : bb.mDataStorage (templateToID hc t) = none) :
    bb.hasPartition hc t = false ∧
    (Blackboard.wipeTypeKey hc t k bb).hasPartition hc t = true ∧
    (Blackboard.unsubscribe hc t k bb).hasPartition hc t = true ∧
    (Blackboard.wipeTypeKey hc t k bb).lookupValue hc t k' = none ∧
    (Blackboard.unsubscribe hc t k bb).lookupValue hc t k' = none ∧
    (Blackboard.wipeTypeKey hc t k bb).lookupKeyCb hc t k' = none := by
  have hbv : bb.lookupValue hc t k' = none := by
    simp [Blackboard.lookupValue, Blackboard.partitionFor, h, emptyValueMap]
  have hbk : bb.lookupKeyCb hc t k' = none := by
    simp [Blackboard.lookupKeyCb, Blackboard.partitionFor, h, emptyValueMap]
  refine ⟨?_, wipeTypeKey_hasPartition hc t k bb, unsubscribe_hasPartition hc t k bb,
    ?_, ?_, ?_⟩
  · simp [Blackboard.hasPartition, h]
  · by_cases hkk : k' = k
    · subst hkk
      exact wipeTypeKey_lookupValue_self hc t k' bb
    · rw [wipeTypeKey_lookupValue_other_key hc t k k' bb hkk, hbv]
  · rw [unsubscribe_lookupValue, hbv]
  · rw [(wipeTypeKey_keeps_callbacks hc t t k k' bb).1, hbk]

/-- Claim C10 witness: on a fresh board, wiping a key of type 0 and
unsubscribing a key of type 0 each leave a registered, empty partition. -/
theorem C10_witness :
    (emptyBlackboard : Blackboard Nat).mDataStorage (templateToID id 0) = none ∧
    ((emptyBlackboard : Blackboard Nat).hasPartition id 0 = false ∧
     (Blackboard.wipeTypeKey id 0 "a" (emptyBlackboard : Blackboard Nat)).hasPartition
        id 0 = true ∧
     (Blackboard.unsubscribe id 0 "a" (emptyBlackboard : Blackboard Nat)).hasPartition
        id 0 = true ∧
     (Blackboard.wipeTypeKey id 0 "a" (emptyBlackboard : Blackboard Nat)).lookupValue
        id 0 "b" = none ∧
     (Blackboard.unsubscribe id 0 "a" (emptyBlackboard : Blackboard Nat)).lookupValue
        id 0 "b" = none ∧
     (Blackboard.wipeTypeKey id 0 "a" (emptyBlackboard : Blackboard Nat)).lookupKeyCb
        id 0 "b" = none) :=
  ⟨rfl, C10_wipe_and_unsubscribe_create_partition id 0 "a" "b" emptyBlackboard rfl⟩
